import Mathlib

/-!
# Verification of the Bitrix24 → Linear webhook relay (`app/main.py`)

This file is a shallow embedding, in Lean 4, of the orchestration pipeline in
`src/app/main.py`: a FastAPI webhook that receives a Bitrix24 CRM event,
normalizes its fields, optionally resolves an assignee by email through the
Linear GraphQL API, creates a Linear issue, mirrors attachment files through a
Cloudflare R2 bucket, and links the mirrored files to the created issue.

Modelling conventions:
* Python's dynamic JSON values are the inductive `Json`; Python truthiness is
  `pyTruthy`; `dict.get` is `Json.dictGet` (raises `AttributeError` on
  non-dicts, yields `null` when the key is absent); `d[k]` subscripting is
  `Json.dictIndex` (raises `KeyError` / `TypeError`).
* Raised exceptions are the error side of `Except PyErr`; `PyErr.http` is a
  FastAPI `HTTPException(status, detail)`, `PyErr.exn` any other exception.
* The outside world (Linear API, HTTP downloads, the R2 client, environment
  variables) is an explicit oracle `Env`.  Every outbound network call is
  recorded, in order, in a `List ExtCall` log threaded through the functions,
  so that properties such as "never issues the user-lookup request" are
  statable.
* `str.lower` is modelled by `String.toLower` (adequate for ASCII emails),
  bytes by `List Nat`.
-/

/-- A JSON value as manipulated by the Python code (the result of
`request.json()` / `resp.json()`).  Python `None` is `Json.null`. -/
inductive Json where
  | null : Json
  | bool (b : Bool) : Json
  | num (n : Int) : Json
  | str (s : String) : Json
  | arr (elems : List Json) : Json
  | obj (fields : List (String × Json)) : Json

mutual

/-- Decidable equality on `Json` (the nested inductive prevents deriving). -/
def Json.decEq : (a b : Json) → Decidable (a = b)
  | Json.null, Json.null => isTrue rfl
  | Json.bool a, Json.bool b =>
      match Bool.decEq a b with
      | isTrue h => isTrue (by rw [h])
      | isFalse h => isFalse (fun hh => h (Json.bool.inj hh))
  | Json.num a, Json.num b =>
      match Int.decEq a b with
      | isTrue h => isTrue (by rw [h])
      | isFalse h => isFalse (fun hh => h (Json.num.inj hh))
  | Json.str a, Json.str b =>
      match String.decEq a b with
      | isTrue h => isTrue (by rw [h])
      | isFalse h => isFalse (fun hh => h (Json.str.inj hh))
  | Json.arr xs, Json.arr ys =>
      match Json.decEqList xs ys with
      | isTrue h => isTrue (by rw [h])
      | isFalse h => isFalse (fun hh => h (Json.arr.inj hh))
  | Json.obj xs, Json.obj ys =>
      match Json.decEqFields xs ys with
      | isTrue h => isTrue (by rw [h])
      | isFalse h => isFalse (fun hh => h (Json.obj.inj hh))
  | Json.null, Json.bool _ => isFalse (fun h => nomatch h)
  | Json.null, Json.num _ => isFalse (fun h => nomatch h)
  | Json.null, Json.str _ => isFalse (fun h => nomatch h)
  | Json.null, Json.arr _ => isFalse (fun h => nomatch h)
  | Json.null, Json.obj _ => isFalse (fun h => nomatch h)
  | Json.bool _, Json.null => isFalse (fun h => nomatch h)
  | Json.bool _, Json.num _ => isFalse (fun h => nomatch h)
  | Json.bool _, Json.str _ => isFalse (fun h => nomatch h)
  | Json.bool _, Json.arr _ => isFalse (fun h => nomatch h)
  | Json.bool _, Json.obj _ => isFalse (fun h => nomatch h)
  | Json.num _, Json.null => isFalse (fun h => nomatch h)
  | Json.num _, Json.bool _ => isFalse (fun h => nomatch h)
  | Json.num _, Json.str _ => isFalse (fun h => nomatch h)
  | Json.num _, Json.arr _ => isFalse (fun h => nomatch h)
  | Json.num _, Json.obj _ => isFalse (fun h => nomatch h)
  | Json.str _, Json.null => isFalse (fun h => nomatch h)
  | Json.str _, Json.bool _ => isFalse (fun h => nomatch h)
  | Json.str _, Json.num _ => isFalse (fun h => nomatch h)
  | Json.str _, Json.arr _ => isFalse (fun h => nomatch h)
  | Json.str _, Json.obj _ => isFalse (fun h => nomatch h)
  | Json.arr _, Json.null => isFalse (fun h => nomatch h)
  | Json.arr _, Json.bool _ => isFalse (fun h => nomatch h)
  | Json.arr _, Json.num _ => isFalse (fun h => nomatch h)
  | Json.arr _, Json.str _ => isFalse (fun h => nomatch h)
  | Json.arr _, Json.obj _ => isFalse (fun h => nomatch h)
  | Json.obj _, Json.null => isFalse (fun h => nomatch h)
  | Json.obj _, Json.bool _ => isFalse (fun h => nomatch h)
  | Json.obj _, Json.num _ => isFalse (fun h => nomatch h)
  | Json.obj _, Json.str _ => isFalse (fun h => nomatch h)
  | Json.obj _, Json.arr _ => isFalse (fun h => nomatch h)

/-- Decidable equality on lists of `Json`. -/
def Json.decEqList : (a b : List Json) → Decidable (a = b)
  | [], [] => isTrue rfl
  | [], _ :: _ => isFalse (fun h => nomatch h)
  | _ :: _, [] => isFalse (fun h => nomatch h)
  | x :: xs, y :: ys =>
      match Json.decEq x y with
      | isFalse h => isFalse (fun hh => h (List.cons.inj hh).1)
      | isTrue h1 =>
          match Json.decEqList xs ys with
          | isTrue h2 => isTrue (by rw [h1, h2])
          | isFalse h => isFalse (fun hh => h (List.cons.inj hh).2)

/-- Decidable equality on `Json` object field lists. -/
def Json.decEqFields : (a b : List (String × Json)) → Decidable (a = b)
  | [], [] => isTrue rfl
  | [], _ :: _ => isFalse (fun h => nomatch h)
  | _ :: _, [] => isFalse (fun h => nomatch h)
  | (k1, v1) :: xs, (k2, v2) :: ys =>
      match String.decEq k1 k2 with
      | isFalse h =>
          isFalse (fun hh => h (congrArg Prod.fst (List.cons.inj hh).1))
      | isTrue hk =>
          match Json.decEq v1 v2 with
          | isFalse h =>
              isFalse (fun hh => h (congrArg Prod.snd (List.cons.inj hh).1))
          | isTrue hv =>
              match Json.decEqFields xs ys with
              | isTrue ht => isTrue (by rw [hk, hv, ht])
              | isFalse h => isFalse (fun hh => h (List.cons.inj hh).2)

end

instance : DecidableEq Json := Json.decEq

/-- Python truthiness of a JSON value: `None`, `False`, `0`, `""`, `[]`, `{}`
are falsy, everything else truthy. -/
def pyTruthy : Json → Bool
  | Json.null => false
  | Json.bool b => b
  | Json.num n => n != 0
  | Json.str s => s != ""
  | Json.arr elems => !elems.isEmpty
  | Json.obj fields => !fields.isEmpty

/-- Python `a or b` on JSON values: `a` when truthy, else `b`. -/
def pyOr (a b : Json) : Json :=
  if pyTruthy a then a else b

/-- First binding of a key in an association list (Python dict lookup). -/
def lookupKey : List (String × Json) → String → Option Json
  | [], _ => none
  | (k, v) :: rest, key => if k = key then some v else lookupKey rest key

/-- Python `str.lower()`, character-wise (adequate for the ASCII emails this
service compares). -/
def strLower (s : String) : String :=
  String.mk (s.data.map Char.toLower)

/-- A raised Python exception: a FastAPI `HTTPException(status, detail)` or any
other exception (`KeyError`, `TypeError`, boto3/httpx errors, …). -/
inductive PyErr where
  | http (status : Nat) (detail : Json) : PyErr
  | exn (msg : String) : PyErr
deriving DecidableEq

/-- Python `d.get(k)`: `AttributeError` when `d` is not a dict, the value (or
`None` when the key is absent) otherwise. -/
def Json.dictGet : Json → String → Except PyErr Json
  | Json.obj kvs, key => Except.ok ((lookupKey kvs key).getD Json.null)
  | _, _ => Except.error (PyErr.exn "AttributeError")

/-- Python `d[k]` subscripting: `TypeError` when `d` is not a dict, `KeyError`
when the key is absent. -/
def Json.dictIndex : Json → String → Except PyErr Json
  | Json.obj kvs, key =>
      match lookupKey kvs key with
      | some v => Except.ok v
      | none => Except.error (PyErr.exn "KeyError")
  | _, _ => Except.error (PyErr.exn "TypeError")

/-- Truthiness of an `os.getenv` result (`str | None`): present and
non-empty. -/
def optStrTruthy : Option String → Bool
  | some s => s != ""
  | none => false

/-- Embed an `os.getenv` result into `Json` (`None` becomes `null`). -/
def jsonOfOpt : Option String → Json
  | some s => Json.str s
  | none => Json.null

/-- One recorded outbound call to an external system. -/
inductive ExtCall where
  | linear (query : String) (vars : Json) : ExtCall
  | download (url : String) : ExtCall
  | r2put (key : String) (body : List Nat) (contentType : String) : ExtCall
deriving DecidableEq

/-- Outcome of the `resp.json()` parse of a Linear HTTP response: either the
body fails to parse as structured data (with the HTTP status and raw text), or
the parsed JSON value. -/
inductive RawResp where
  | parseFail (status : Nat) (text : String) : RawResp
  | parsed (j : Json) : RawResp

/-- Outcome of `httpx` `client.get(url)`: an exception raised during the
request, or a response with status code, body bytes and an optional
`content-type` header. -/
inductive DlResult where
  | exn (msg : String) : DlResult
  | resp (status : Nat) (body : List Nat) (contentType : Option String) : DlResult

/-- The external world: environment variables and the behaviour of the Linear
API, of HTTP file downloads and of the R2 client.  `r2Put key body ct` is
`none` when `put_object` succeeds and `some msg` when it raises. -/
structure Env where
  linearApiKey : Option String
  linearTeamId : Option String
  r2AccessKeyId : Option String
  r2SecretAccessKey : Option String
  r2AccountId : Option String
  r2BucketName : Option String
  r2PublicBaseUrl : Option String
  linearRespond : String → Json → RawResp
  httpGet : String → DlResult
  r2Put : String → List Nat → String → Option String

/-- `R2` configuration completeness: the `all([...])` check of
`upload_to_r2`. -/
def r2Complete (env : Env) : Bool :=
  optStrTruthy env.r2AccessKeyId && optStrTruthy env.r2SecretAccessKey &&
    optStrTruthy env.r2AccountId && optStrTruthy env.r2BucketName &&
    optStrTruthy env.r2PublicBaseUrl

/-- Python `s.rstrip(c)` for a single strip character. -/
def rstrip (s : String) (c : Char) : String :=
  String.mk ((s.data.reverse.dropWhile (fun d => d = c)).reverse)

/-- Interpretation of one Linear HTTP response (`app/main.py` lines 63–74):
502 with a diagnostic string when the body does not parse, 502 carrying
`{"linear_errors": ...}` when the parsed body has a truthy `errors` entry, and
`data["data"]` otherwise. -/
def interpretLinearResponse : RawResp → Except PyErr Json
  | RawResp.parseFail status text =>
      Except.error (PyErr.http 502 (Json.str
        ("Erro na resposta do Linear (status " ++ toString status ++ "): "
          ++ text.take 500)))
  | RawResp.parsed j =>
      match j.dictGet "errors" with
      | Except.error e => Except.error e
      | Except.ok errs =>
          if pyTruthy errs then
            Except.error (PyErr.http 502 (Json.obj [("linear_errors", errs)]))
          else
            match j.dictIndex "data" with
            | Except.error e => Except.error e
            | Except.ok d => Except.ok d

/-- `linear_request(query, variables)` (`app/main.py` lines 45–74): fails with
500 when the API key is missing or empty, otherwise posts exactly one GraphQL
request and interprets the response. -/
def linear_request (env : Env) (query : String) (vars : Json)
    (log : List ExtCall) : Except PyErr Json × List ExtCall :=
  if optStrTruthy env.linearApiKey = false then
    (Except.error (PyErr.http 500 (Json.str "Falta LINEAR_API_KEY")), log)
  else
    (interpretLinearResponse (env.linearRespond query vars),
      log ++ [ExtCall.linear query vars])

/-- The user-lookup GraphQL document of `get_user_id_by_email` (lines
82–88). -/
def usersQuery : String :=
  "\n    \x7b\n      users(first: 200) \x7b\n        nodes \x7b id email \x7d\n      \x7d\n    \x7d\n    "

/-- The scan of the fetched user page (lines 94–96): first user whose
lowercased `email` equals the lowercased target, returning its `id`;
`u.get(...)` on a non-dict node and `.lower()` on a truthy non-string email
raise. -/
def findUser : List Json → String → Except PyErr Json
  | [], _ => Except.ok Json.null
  | u :: rest, emailLower =>
      match u.dictGet "email" with
      | Except.error e => Except.error e
      | Except.ok ev =>
          match pyOr ev (Json.str "") with
          | Json.str es =>
              if strLower es = emailLower then u.dictGet "id"
              else findUser rest emailLower
          | _ => Except.error (PyErr.exn "AttributeError")

/-- `get_user_id_by_email(email)` (lines 77–98): `None` for a falsy email
without any request, otherwise one `usersQuery` call followed by the first
case-insensitive match in the returned page. -/
def get_user_id_by_email (env : Env) (email : Json) (log : List ExtCall) :
    Except PyErr Json × List ExtCall :=
  if pyTruthy email = false then (Except.ok Json.null, log)
  else
    match linear_request env usersQuery (Json.obj []) log with
    | (Except.error e, l) => (Except.error e, l)
    | (Except.ok data, l) =>
        match data.dictGet "users" with
        | Except.error e => (Except.error e, l)
        | Except.ok usersVal =>
            match (pyOr usersVal (Json.obj [])).dictGet "nodes" with
            | Except.error e => (Except.error e, l)
            | Except.ok nodesVal =>
                match email with
                | Json.str s =>
                    match pyOr nodesVal (Json.arr []) with
                    | Json.arr nodes => (findUser nodes (strLower s), l)
                    | _ => (Except.error (PyErr.exn "TypeError"), l)
                | _ => (Except.error (PyErr.exn "AttributeError"), l)

/-- `upload_to_r2(file_bytes, filename, content_type)` (lines 105–123): fails
with 500 when the R2 configuration is incomplete, otherwise puts the object
under `attachments/<filename>` (any `put_object` exception propagates) and
returns `R2_PUBLIC_BASE_URL.rstrip("/") + "/" + key`. -/
def upload_to_r2 (env : Env) (fileBytes : List Nat) (filename : String)
    (contentType : Option String) (log : List ExtCall) :
    Except PyErr String × List ExtCall :=
  if r2Complete env = false then
    (Except.error (PyErr.http 500 (Json.str "Configuração R2 incompleta.")), log)
  else
    let key := "attachments/" ++ filename
    let ct := match contentType with
      | some c => if c = "" then "application/octet-stream" else c
      | none => "application/octet-stream"
    ((match env.r2Put key fileBytes ct with
      | some msg => Except.error (PyErr.exn msg)
      | none =>
          Except.ok (rstrip (env.r2PublicBaseUrl.getD "") '/' ++ "/" ++ key)),
      log ++ [ExtCall.r2put key fileBytes ct])

/-- A character permitted in a URL scheme (`urllib.parse.scheme_chars`). -/
def isSchemeChar (c : Char) : Bool :=
  c.isAlpha || c.isDigit || c = '+' || c = '-' || c = '.'

/-- The schemes for which `urlparse` splits `;params` off the last path
segment (`urllib.parse.uses_params`). -/
def usesParams : List String :=
  ["", "ftp", "hdl", "prospero", "http", "imap", "https", "shttp", "rtsp",
   "rtspu", "sip", "sips", "mms", "sftp", "tel"]

/-- `urllib.parse._splitparams`, restricted to the path it returns: drop
everything from the first `;` of the last `/`-segment (of the whole string
when it has no `/`). -/
def splitParamsChars (cs : List Char) : List Char :=
  if cs.contains '/' then
    let lastSeg := (cs.reverse.takeWhile (fun c => c ≠ '/')).reverse
    cs.take (cs.length - lastSeg.length) ++
      lastSeg.takeWhile (fun c => c ≠ ';')
  else
    cs.takeWhile (fun c => c ≠ ';')

/-- The `path` component of `urllib.parse.urlparse`, on a character list:
strip a well-formed `scheme:` prefix (remembering the lowercased scheme),
then a `//netloc` prefix (delimited by `/`, `?` or `#`), keep everything
before the first `#` or `?`, and — for schemes that use params, including the
empty scheme and `http`/`https` — drop the `;params` suffix of the last path
segment, as `urlparse` (unlike `urlsplit`) does. -/
def urlparsePathChars (cs : List Char) : List Char :=
  let pre := cs.takeWhile (fun c => c ≠ ':')
  let schemeOk : Bool :=
    decide (pre.length < cs.length) &&
      (match pre with
       | [] => false
       | c :: rest => c.isAlpha && rest.all isSchemeChar)
  let scheme := if schemeOk then String.mk (pre.map Char.toLower) else ""
  let cs1 := if schemeOk then cs.drop (pre.length + 1) else cs
  let cs2 :=
    match cs1 with
    | '/' :: '/' :: rest =>
        rest.dropWhile (fun c => c ≠ '/' ∧ c ≠ '?' ∧ c ≠ '#')
    | _ => cs1
  let path := (cs2.takeWhile (fun c => c ≠ '#')).takeWhile (fun c => c ≠ '?')
  if usesParams.contains scheme then splitParamsChars path else path

/-- `urlparse(url).path` as a string function. -/
def urlparsePath (url : String) : String :=
  String.mk (urlparsePathChars url.data)

/-- POSIX `os.path.basename`: everything after the last `/`. -/
def posixBasename (s : String) : String :=
  String.mk ((s.data.reverse.takeWhile (fun c => c ≠ '/')).reverse)

/-- The filename derivation of the attachment loop (lines 226–228):
`os.path.basename(urlparse(url).path)`, with the literal fallback
`"ficheiro"` when that is empty. -/
def deriveFilename (url : String) : String :=
  let rawName := posixBasename (urlparsePath url)
  if rawName = "" then "ficheiro" else rawName

/-- The issue-creation GraphQL document (`app/main.py` lines 176–183). -/
def mutationCreate : String :=
  "\n    mutation($input: IssueCreateInput!) \x7b\n      issueCreate(input: $input) \x7b\n        success\n        issue \x7b id identifier title url \x7d\n      \x7d\n    \x7d\n    "

/-- The attachment-creation GraphQL document (lines 202–209). -/
def mutationAttach : String :=
  "\n        mutation($input: AttachmentCreateInput!) \x7b\n          attachmentCreate(input: $input) \x7b\n            success\n            attachment \x7b id title url \x7d\n          \x7d\n        \x7d\n        "

/-- Title normalization (lines 156–161):
`fields.get("TITLE") or fields.get("SUBJECT") or payload.get("title") or
"Item do Bitrix24"`. -/
def computeTitle (payload fields : Json) : Except PyErr Json :=
  match fields.dictGet "TITLE" with
  | Except.error e => Except.error e
  | Except.ok t =>
      match fields.dictGet "SUBJECT" with
      | Except.error e => Except.error e
      | Except.ok sub =>
          match payload.dictGet "title" with
          | Except.error e => Except.error e
          | Except.ok top =>
              Except.ok (pyOr t (pyOr sub (pyOr top
                (Json.str "Item do Bitrix24"))))

/-- Description normalization (line 162):
`fields.get("COMMENTS") or "Criado automaticamente pelo Bitrix24."`. -/
def computeDescription (fields : Json) : Except PyErr Json :=
  match fields.dictGet "COMMENTS" with
  | Except.error e => Except.error e
  | Except.ok c =>
      Except.ok (pyOr c (Json.str "Criado automaticamente pelo Bitrix24."))

/-- Attachment-URL normalization (lines 169–173):
`fields.get("ATTACHMENT_URLS") or []`, with a single string promoted to a
one-element list. -/
def computeAttachmentUrls (fields : Json) : Except PyErr Json :=
  match fields.dictGet "ATTACHMENT_URLS" with
  | Except.error e => Except.error e
  | Except.ok v =>
      let urls := pyOr v (Json.arr [])
      match urls with
      | Json.str s => Except.ok (Json.arr [Json.str s])
      | other => Except.ok other

/-- Assignee resolution (lines 165–166): reads `ASSIGNEE_EMAIL`, and calls
`get_user_id_by_email` only when it is truthy; returns the email together with
the resolved id (`None` otherwise). -/
def resolveAssignee (env : Env) (fields : Json) (log : List ExtCall) :
    Except PyErr (Json × Json) × List ExtCall :=
  match fields.dictGet "ASSIGNEE_EMAIL" with
  | Except.error e => (Except.error e, log)
  | Except.ok email =>
      if pyTruthy email then
        match get_user_id_by_email env email log with
        | (Except.error e, l) => (Except.error e, l)
        | (Except.ok uid, l) => (Except.ok (email, uid), l)
      else (Except.ok (email, Json.null), log)

/-- The issue-creation input (lines 185–191): `title`, `description`, `teamId`
always, `assigneeId` appended only when the resolved id is truthy. -/
def buildIssueInput (env : Env) (title description assigneeId : Json) : Json :=
  Json.obj ([("title", title), ("description", description),
    ("teamId", jsonOfOpt env.linearTeamId)] ++
    (if pyTruthy assigneeId then [("assigneeId", assigneeId)] else []))

/-- Python iteration over the attachment-URL container (`for url in
attachment_urls`): lists yield their elements, dicts their keys, strings their
characters (as one-character strings); other values raise `TypeError`. -/
def iterElems : Json → Except PyErr (List Json)
  | Json.arr xs => Except.ok xs
  | Json.obj kvs => Except.ok (kvs.map (fun kv => Json.str kv.1))
  | Json.str s => Except.ok (s.data.map (fun c => Json.str (String.mk [c])))
  | _ => Except.error (PyErr.exn "TypeError")

/-- The variables of one attachment-link mutation (lines 233–242). -/
def attachVars (issueId : Json) (filename publicUrl : String) : Json :=
  Json.obj [("input", Json.obj [("issueId", issueId),
    ("title", Json.str filename), ("url", Json.str publicUrl)])]

/-- The attachment loop (lines 211–242).  Per URL: a falsy URL is skipped; a
download that raises (including non-string URLs handed to `httpx`) or returns a
non-2xx status (`raise_for_status`) is caught by the per-item `except` and the
loop continues; then the filename is derived, the bytes are uploaded to R2 and
the mirrored file is linked to the issue — errors of these last two steps are
*not* caught and propagate.  Returns the public URLs of the mirrored
attachments in input order. -/
def attachLoop (env : Env) (issueId : Json) :
    List Json → List ExtCall → Except PyErr (List String) × List ExtCall
  | [], log => (Except.ok [], log)
  | url :: rest, log =>
      if pyTruthy url = false then attachLoop env issueId rest log
      else
        match url with
        | Json.str s =>
            let log1 := log ++ [ExtCall.download s]
            match env.httpGet s with
            | DlResult.exn _ => attachLoop env issueId rest log1
            | DlResult.resp status body ct =>
                if status < 200 ∨ 300 ≤ status then
                  attachLoop env issueId rest log1
                else
                  let contentType := ct.getD "application/octet-stream"
                  let filename := deriveFilename s
                  match upload_to_r2 env body filename (some contentType) log1 with
                  | (Except.error e, l) => (Except.error e, l)
                  | (Except.ok publicUrl, l) =>
                      match linear_request env mutationAttach
                          (attachVars issueId filename publicUrl) l with
                      | (Except.error e, l2) => (Except.error e, l2)
                      | (Except.ok _, l2) =>
                          match attachLoop env issueId rest l2 with
                          | (Except.ok created, l3) =>
                              (Except.ok (publicUrl :: created), l3)
                          | (Except.error e, l3) => (Except.error e, l3)
        | _ => attachLoop env issueId rest log

/-- Extraction of the nested field set (lines 151–153):
`data = payload.get("data") or {}` followed by
`fields = data.get("FIELDS") or {}`. -/
def extractFields (payload : Json) : Except PyErr Json :=
  match payload.dictGet "data" with
  | Except.error e => Except.error e
  | Except.ok dataV =>
      match (pyOr dataV (Json.obj [])).dictGet "FIELDS" with
      | Except.error e => Except.error e
      | Except.ok fieldsV => Except.ok (pyOr fieldsV (Json.obj []))

/-- The webhook handler `bitrix_linear(request)` (lines 141–251): normalize
the payload, resolve the assignee, create the issue, best-effort mirror the
attachments, and assemble the response dict. -/
def bitrix_linear (env : Env) (payload : Json) :
    Except PyErr Json × List ExtCall :=
  match extractFields payload with
  | Except.error e => (Except.error e, [])
  | Except.ok fields =>
  match computeTitle payload fields with
  | Except.error e => (Except.error e, [])
  | Except.ok title =>
  match computeDescription fields with
  | Except.error e => (Except.error e, [])
  | Except.ok description =>
  match resolveAssignee env fields [] with
  | (Except.error e, log) => (Except.error e, log)
  | (Except.ok (assigneeEmail, assigneeId), log) =>
  match computeAttachmentUrls fields with
  | Except.error e => (Except.error e, log)
  | Except.ok attachmentUrls =>
  let issueInput := buildIssueInput env title description assigneeId
  match linear_request env mutationCreate (Json.obj [("input", issueInput)]) log with
  | (Except.error e, log1) => (Except.error e, log1)
  | (Except.ok dataCreate, log1) =>
  match dataCreate.dictIndex "issueCreate" with
  | Except.error e => (Except.error e, log1)
  | Except.ok issueCreate =>
  match issueCreate.dictIndex "issue" with
  | Except.error e => (Except.error e, log1)
  | Except.ok issue =>
  match issue.dictIndex "id" with
  | Except.error e => (Except.error e, log1)
  | Except.ok issueId =>
  match (if pyTruthy attachmentUrls then
          match iterElems attachmentUrls with
          | Except.error e => (Except.error e, log1)
          | Except.ok elems => attachLoop env issueId elems log1
        else (Except.ok [], log1)) with
  | (Except.error e, log2) => (Except.error e, log2)
  | (Except.ok created, log2) =>
      (Except.ok (Json.obj [("ok", Json.bool true), ("issue", issue),
        ("assigneeEmail", assigneeEmail), ("assigneeId", assigneeId),
        ("attachment_urls_received", attachmentUrls),
        ("attachments", Json.arr (created.map Json.str))]), log2)

/-! ## Derived notions and concrete test worlds used by the claims -/

/-- The content type actually sent to R2 for a download whose `content-type`
header was `ct`: the loop substitutes `application/octet-stream` for an absent
header, and `upload_to_r2` substitutes it again for an empty one. -/
def finalCT (ct : Option String) : String :=
  if ct.getD "application/octet-stream" = "" then "application/octet-stream"
  else ct.getD "application/octet-stream"

/-- The public URL the pipeline composes for a mirrored attachment of source
URL `s`: public base with trailing slashes stripped, `/`, the storage key
`attachments/<derived filename>`. -/
def pubUrl (env : Env) (s : String) : String :=
  rstrip (env.r2PublicBaseUrl.getD "") '/' ++ "/" ++
    ("attachments/" ++ deriveFilename s)

/-- The download of `s` fails: the GET raises, or `raise_for_status` does
(non-2xx status). -/
def dlFails (env : Env) (s : String) : Prop :=
  match env.httpGet s with
  | DlResult.exn _ => True
  | DlResult.resp st _ _ => st < 200 ∨ 300 ≤ st

/-- The Linear API answers request `(q, v)` with a well-formed success:
a parsed object with no truthy `errors` entry and a `data` entry. -/
def linearOk (env : Env) (q : String) (v : Json) : Prop :=
  ∃ kvs d, env.linearRespond q v = RawResp.parsed (Json.obj kvs) ∧
    pyTruthy ((lookupKey kvs "errors").getD Json.null) = false ∧
    lookupKey kvs "data" = some d

/-- Mirroring the attachment at `s` (for issue `iid`) succeeds end to end:
non-empty URL, 2xx download, successful R2 put of the downloaded bytes under
the derived key, and a successful attachment-creation mutation. -/
def mirrorOk (env : Env) (iid : Json) (s : String) : Prop :=
  s ≠ "" ∧
  ∃ st body ct, env.httpGet s = DlResult.resp st body ct ∧
    200 ≤ st ∧ st < 300 ∧
    env.r2Put ("attachments/" ++ deriveFilename s) body (finalCT ct) = none ∧
    linearOk env mutationAttach
      (attachVars iid (deriveFilename s) (pubUrl env s))

/-- The first truthy value in a candidate list, else a default — the claim-side
reading of the title fallback chain (amended claim C5). -/
def firstTruthy : List Json → Json → Json
  | [], d => d
  | v :: rest, d => if pyTruthy v then v else firstTruthy rest d

/-- The title as claim C5 literally reads: the first *present* value among
`FIELDS.TITLE`, `FIELDS.SUBJECT` and the top-level `title` key (present =
the key is bound, whatever the value), else the fixed default. -/
def claimedTitleC5 (pkvs kvs : List (String × Json)) : Json :=
  match lookupKey kvs "TITLE" with
  | some v => v
  | none =>
      match lookupKey kvs "SUBJECT" with
      | some v => v
      | none => (lookupKey pkvs "title").getD (Json.str "Item do Bitrix24")

/-- Removal of a key from a field set (for stating that an empty-string value
behaves like an absent key). -/
def eraseKey (kvs : List (String × Json)) (k : String) :
    List (String × Json) :=
  kvs.filter (fun kv => kv.1 != k)

/-- A well-formed node of the user-lookup response page: an object with `id`
and `email` strings (the shape requested by `usersQuery`). -/
def mkUserNode (u : String × String) : Json :=
  Json.obj [("id", Json.str u.1), ("email", Json.str u.2)]

/-- An inbound event whose field set has a fixed title and the given
attachment URL list (used to state list-level pipeline claims). -/
def mkAttachPayload (urls : List String) : Json :=
  Json.obj [("data", Json.obj [("FIELDS", Json.obj
    [("TITLE", Json.str "T"),
     ("ATTACHMENT_URLS", Json.arr (urls.map Json.str))])])]

/-- The user page returned by the concrete test world: one user `U1` with
email `A@B.com`. -/
def usersRespW : RawResp :=
  RawResp.parsed (Json.obj [("data", Json.obj [("users", Json.obj
    [("nodes", Json.arr [mkUserNode ("U1", "A@B.com")])])])])

/-- The issue object returned by the concrete test world. -/
def issueW : Json :=
  Json.obj [("id", Json.str "I1"), ("identifier", Json.str "ENG-42"),
    ("title", Json.str "Fix pump"), ("url", Json.str "https://linear.app/i/ENG-42")]

/-- The issue-creation response of the concrete test world. -/
def createRespW : RawResp :=
  RawResp.parsed (Json.obj [("data", Json.obj [("issueCreate", Json.obj
    [("success", Json.bool true), ("issue", issueW)])])])

/-- The attachment-creation response of the concrete test world. -/
def attachRespW : RawResp :=
  RawResp.parsed (Json.obj [("data", Json.obj [("attachmentCreate", Json.obj
    [("success", Json.bool true)])])])

/-- A fully configured concrete world: complete configuration, a one-user
lookup page, successful issue and attachment creation, two downloadable
files, and an R2 bucket that accepts every put. -/
def envW : Env where
  linearApiKey := some "key"
  linearTeamId := some "team1"
  r2AccessKeyId := some "ak"
  r2SecretAccessKey := some "sk"
  r2AccountId := some "acct"
  r2BucketName := some "bkt"
  r2PublicBaseUrl := some "https://pub-x.r2.dev"
  linearRespond := fun q _v =>
    if q = usersQuery then usersRespW
    else if q = mutationCreate then createRespW
    else attachRespW
  httpGet := fun u =>
    if u = "http://x/file.pdf" then
      DlResult.resp 200 [1, 2, 3] (some "application/pdf")
    else if u = "http://h/a.pdf" then
      DlResult.resp 200 [4] (some "application/pdf")
    else if u = "http://h/b.pdf" then DlResult.resp 200 [5] none
    else DlResult.exn "connect error"
  r2Put := fun _ _ _ => none

/-- The concrete world `envW` with an R2 bucket whose `put_object` raises. -/
def envUploadFailW : Env :=
  { envW with r2Put := fun _ _ _ => some "boom" }

/-- The scenario payload of claim C3. -/
def payloadC3 : Json :=
  Json.obj [("data", Json.obj [("FIELDS", Json.obj
    [("TITLE", Json.str "Fix pump"), ("COMMENTS", Json.str "urgent"),
     ("ASSIGNEE_EMAIL", Json.str "a@b.com"),
     ("ATTACHMENT_URLS", Json.arr [Json.str "http://x/file.pdf"])])])]

/-- The concrete world `envW` with a Linear API that answers every request
with an application-level error list. -/
def envAppErrW : Env :=
  { envW with linearRespond := fun _ _ => RawResp.parsed (Json.obj
      [("errors", Json.arr [Json.str "invalid team id"]), ("data", Json.null)]) }

/-- A field set whose four domain fields are all bound to the empty string
(used to witness claim C10). -/
def emptyFieldsW : List (String × Json) :=
  [("TITLE", Json.str ""), ("COMMENTS", Json.str ""),
   ("ASSIGNEE_EMAIL", Json.str ""), ("ATTACHMENT_URLS", Json.str "")]

/-- The concrete world `envW` with a minimal issue-creation response (used to
witness the list-level pipeline claim). -/
def envC2W : Env :=
  { envW with linearRespond := fun q _ =>
      if q = mutationCreate then
        RawResp.parsed (Json.obj [("data", Json.obj [("issueCreate",
          Json.obj [("issue", issueW)])])])
      else attachRespW }

/-! ## Basic lemmas about the embedding -/

theorem pyOr_arr_nil (xs : List Json) :
    pyOr (Json.arr xs) (Json.arr []) = Json.arr xs := by
  cases xs <;> rfl

theorem pyOr_obj_nil (kvs : List (String × Json)) :
    pyOr (Json.obj kvs) (Json.obj []) = Json.obj kvs := by
  cases kvs <;> rfl

theorem pyOr_str_empty (a : String) :
    pyOr (Json.str a) (Json.str "") = Json.str a := by
  by_cases h : a = "" <;> simp [pyOr, pyTruthy, h]

theorem pyOr_of_truthy {a : Json} (b : Json) (h : pyTruthy a = true) :
    pyOr a b = a := by
  simp [pyOr, h]

theorem pyOr_of_falsy {a : Json} (b : Json) (h : pyTruthy a = false) :
    pyOr a b = b := by
  simp [pyOr, h]

theorem pyOr_empty_str (b : Json) : pyOr (Json.str "") b = b := rfl

theorem pyOr_null (b : Json) : pyOr Json.null b = b := rfl

/-- The value returned by `linear_request` does not depend on the incoming
call log. -/
theorem linear_request_fst (env : Env) (q : String) (v : Json)
    (log : List ExtCall) :
    (linear_request env q v log).1 = (linear_request env q v []).1 := by
  unfold linear_request
  split <;> rfl

/-- The call log produced by `linear_request` extends the incoming log. -/
theorem linear_request_snd (env : Env) (q : String) (v : Json)
    (log : List ExtCall) :
    (linear_request env q v log).2 = log ++ (linear_request env q v []).2 := by
  unfold linear_request
  split <;> simp

/-- The value returned by `upload_to_r2` does not depend on the incoming
call log. -/
theorem upload_to_r2_fst (env : Env) (b : List Nat) (f : String)
    (ct : Option String) (log : List ExtCall) :
    (upload_to_r2 env b f ct log).1 = (upload_to_r2 env b f ct []).1 := by
  unfold upload_to_r2
  split <;> rfl

/-- Calls recorded by `linear_request`: anything in the outgoing log is either
from the incoming log or the single posted request. -/
theorem linear_request_mem (env : Env) (q : String) (v : Json)
    (log : List ExtCall) (c : ExtCall)
    (hc : c ∈ (linear_request env q v log).2) :
    c ∈ log ∨ c = ExtCall.linear q v := by
  unfold linear_request at hc
  revert hc
  split
  · exact fun hc => Or.inl hc
  · intro hc
    simpa using hc

/-- Calls recorded by `upload_to_r2`: anything in the outgoing log is either
from the incoming log or an R2 put. -/
theorem upload_to_r2_mem (env : Env) (b : List Nat) (f : String)
    (ct : Option String) (log : List ExtCall) (c : ExtCall)
    (hc : c ∈ (upload_to_r2 env b f ct log).2) :
    c ∈ log ∨ ∃ k bb cc, c = ExtCall.r2put k bb cc := by
  unfold upload_to_r2 at hc
  revert hc
  split
  · exact fun hc => Or.inl hc
  · intro hc
    simp only [List.mem_append, List.mem_singleton] at hc
    rcases hc with h | h
    · exact Or.inl h
    · exact Or.inr ⟨_, _, _, h⟩

/-- Calls recorded by the attachment loop: anything in the outgoing log is
from the incoming log, a file download, an R2 put, or an attachment-creation
mutation — never any other GraphQL request. -/
theorem attachLoop_mem (env : Env) (iid : Json) :
    ∀ (urls : List Json) (log : List ExtCall) (c : ExtCall),
      c ∈ (attachLoop env iid urls log).2 →
      c ∈ log ∨ (∃ u, c = ExtCall.download u) ∨
        (∃ k b ct, c = ExtCall.r2put k b ct) ∨
        (∃ v, c = ExtCall.linear mutationAttach v) := by
  intro urls
  induction urls with
  | nil => intro log c hc; exact Or.inl hc
  | cons url rest ih =>
      intro log c hc
      unfold attachLoop at hc
      by_cases hu : pyTruthy url = false
      · rw [if_pos hu] at hc
        exact ih log c hc
      · rw [if_neg hu] at hc
        cases url with
        | str s =>
            dsimp only at hc
            cases hdl : env.httpGet s with
            | exn m =>
                rw [hdl] at hc
                dsimp only at hc
                rcases ih _ c hc with h | h
                · rcases List.mem_append.mp h with h2 | h2
                  · exact Or.inl h2
                  · simp only [List.mem_singleton] at h2
                    exact Or.inr (Or.inl ⟨_, h2⟩)
                · exact Or.inr h
            | resp st body ct =>
                rw [hdl] at hc
                dsimp only at hc
                by_cases hst : st < 200 ∨ 300 ≤ st
                · rw [if_pos hst] at hc
                  rcases ih _ c hc with h | h
                  · rcases List.mem_append.mp h with h2 | h2
                    · exact Or.inl h2
                    · simp only [List.mem_singleton] at h2
                      exact Or.inr (Or.inl ⟨_, h2⟩)
                  · exact Or.inr h
                · rw [if_neg hst] at hc
                  rcases hup : upload_to_r2 env body (deriveFilename s)
                      (some (ct.getD "application/octet-stream"))
                      (log ++ [ExtCall.download s]) with ⟨r, l⟩
                  rw [hup] at hc
                  have upMem : c ∈ l →
                      c ∈ log ∨ (∃ u, c = ExtCall.download u) ∨
                        (∃ k b ct2, c = ExtCall.r2put k b ct2) ∨
                        (∃ v, c = ExtCall.linear mutationAttach v) := by
                    intro hl
                    have := upload_to_r2_mem env body (deriveFilename s)
                      (some (ct.getD "application/octet-stream"))
                      (log ++ [ExtCall.download s]) c (by rw [hup]; exact hl)
                    rcases this with h | h
                    · rcases List.mem_append.mp h with h2 | h2
                      · exact Or.inl h2
                      · simp only [List.mem_singleton] at h2
                        exact Or.inr (Or.inl ⟨_, h2⟩)
                    · exact Or.inr (Or.inr (Or.inl h))
                  cases r with
                  | error e => exact upMem hc
                  | ok pub =>
                      dsimp only at hc
                      rcases hlin : linear_request env mutationAttach
                          (attachVars iid (deriveFilename s) pub) l with ⟨r2, l2⟩
                      rw [hlin] at hc
                      have linMem : c ∈ l2 →
                          c ∈ log ∨ (∃ u, c = ExtCall.download u) ∨
                            (∃ k b ct2, c = ExtCall.r2put k b ct2) ∨
                            (∃ v, c = ExtCall.linear mutationAttach v) := by
                        intro hl2
                        have := linear_request_mem env mutationAttach
                          (attachVars iid (deriveFilename s) pub) l c
                          (by rw [hlin]; exact hl2)
                        rcases this with h | h
                        · exact upMem h
                        · exact Or.inr (Or.inr (Or.inr ⟨_, h⟩))
                      cases r2 with
                      | error e => exact linMem hc
                      | ok x =>
                          dsimp only at hc
                          rcases hrec : attachLoop env iid rest l2 with ⟨r3, l3⟩
                          rw [hrec] at hc
                          have recMem : c ∈ l3 →
                              c ∈ log ∨ (∃ u, c = ExtCall.download u) ∨
                                (∃ k b ct2, c = ExtCall.r2put k b ct2) ∨
                                (∃ v, c = ExtCall.linear mutationAttach v) := by
                            intro hl3
                            have := ih l2 c (by rw [hrec]; exact hl3)
                            rcases this with h | h
                            · exact linMem h
                            · exact Or.inr h
                          cases r3 with
                          | error e => exact recMem hc
                          | ok created => exact recMem hc
        | null => exact ih log c hc
        | bool b => exact ih log c hc
        | num n => exact ih log c hc
        | arr xs => exact ih log c hc
        | obj kvs => exact ih log c hc

/-! ## Claim C4 — tracker client error handling -/

/-- **C4**: for every tracker request whose response body parses as structured
data, the call fails with an application error carrying the response's error
list verbatim (502, `{"linear_errors": <errors>}`) if and only if that error
list is present and truthy (non-empty), and otherwise returns the response's
`data` object unwrapped. -/
theorem claim_C4_linear_request_errors (env : Env) (q : String) (v : Json)
    (log : List ExtCall) (kvs : List (String × Json))
    (hkey : optStrTruthy env.linearApiKey = true)
    (hresp : env.linearRespond q v = RawResp.parsed (Json.obj kvs)) :
    (∀ e, lookupKey kvs "errors" = some e → pyTruthy e = true →
        (linear_request env q v log).1 =
          Except.error (PyErr.http 502 (Json.obj [("linear_errors", e)])))
    ∧ (pyTruthy ((lookupKey kvs "errors").getD Json.null) = false →
        ∀ d, lookupKey kvs "data" = some d →
          (linear_request env q v log).1 = Except.ok d)
    ∧ ((∃ e, (linear_request env q v log).1 =
          Except.error (PyErr.http 502 (Json.obj [("linear_errors", e)]))) ↔
        pyTruthy ((lookupKey kvs "errors").getD Json.null) = true) := by
  have hrun : (linear_request env q v log).1 =
      interpretLinearResponse (RawResp.parsed (Json.obj kvs)) := by
    unfold linear_request
    rw [hkey]
    simp [hresp]
  have hint : interpretLinearResponse (RawResp.parsed (Json.obj kvs)) =
      (if pyTruthy ((lookupKey kvs "errors").getD Json.null) then
        Except.error (PyErr.http 502 (Json.obj [("linear_errors",
          (lookupKey kvs "errors").getD Json.null)]))
      else
        match (Json.obj kvs).dictIndex "data" with
        | Except.error e => Except.error e
        | Except.ok d => Except.ok d) := rfl
  refine ⟨?_, ?_, ?_⟩
  · intro e he hte
    rw [hrun, hint, he]
    simp [hte]
  · intro hf d hd
    rw [hrun, hint]
    simp only [hf, if_false, Bool.false_eq_true]
    simp [Json.dictIndex, hd]
  · constructor
    · rintro ⟨e, he⟩
      by_contra hne
      have hf : pyTruthy ((lookupKey kvs "errors").getD Json.null) = false :=
        Bool.not_eq_true _ ▸ Bool.eq_false_iff.mpr hne
      rw [hrun, hint] at he
      simp only [hf, if_false, Bool.false_eq_true] at he
      cases hd : lookupKey kvs "data" with
      | some d => simp [Json.dictIndex, hd] at he
      | none => simp [Json.dictIndex, hd] at he
    · intro ht
      exact ⟨(lookupKey kvs "errors").getD Json.null,
        by rw [hrun, hint]; simp [ht]⟩

/-- Witness for C4 at a concrete world whose tracker answers with a non-empty
error list: the call fails with 502 carrying that list verbatim. -/
theorem claim_C4_witness :
    (linear_request envAppErrW "q" Json.null []).1 =
      Except.error (PyErr.http 502 (Json.obj [("linear_errors",
        Json.arr [Json.str "invalid team id"])])) :=
  (claim_C4_linear_request_errors envAppErrW "q" Json.null []
    [("errors", Json.arr [Json.str "invalid team id"]), ("data", Json.null)]
    (by decide) rfl).1 (Json.arr [Json.str "invalid team id"]) rfl (by decide)

/-! ## Claim C7 — user resolver -/

/-- On a page of well-formed user nodes, the source's scan agrees with a
first-match search: the id of the first user whose lowercased email equals the
target, else `None`. -/
theorem findUser_map (users : List (String × String)) (el : String) :
    findUser (users.map mkUserNode) el =
      Except.ok (match users.find? (fun u => strLower u.2 == el) with
        | some u => Json.str u.1
        | none => Json.null) := by
  induction users with
  | nil => rfl
  | cons u rest ih =>
      rw [List.map_cons]
      unfold findUser
      have hget : (mkUserNode u).dictGet "email" = Except.ok (Json.str u.2) :=
        rfl
      rw [hget]
      dsimp only
      rw [pyOr_str_empty]
      dsimp only
      by_cases h : strLower u.2 = el
      · rw [if_pos h, List.find?_cons_of_pos _ (by simp [h])]
        rfl
      · rw [if_neg h, List.find?_cons_of_neg _ (by simp [h])]
        exact ih

/-- **C7**: for every non-empty email, the resolver issues exactly one tracker
query (the outgoing log extends the incoming one by exactly the single users
request — in particular it never paginates past the first page), that query
asks for a single page of at most 200 users (`users(first: 200)` occurs in the
document), and the result is the id of the first user in the returned page
whose email matches case-insensitively, or `None` when no user matches. -/
theorem claim_C7_user_resolver (env : Env) (s : String) (log : List ExtCall)
    (users : List (String × String))
    (hkey : optStrTruthy env.linearApiKey = true)
    (hs : s ≠ "")
    (hresp : env.linearRespond usersQuery (Json.obj []) =
      RawResp.parsed (Json.obj [("data", Json.obj [("users", Json.obj
        [("nodes", Json.arr (users.map mkUserNode))])])])) :
    get_user_id_by_email env (Json.str s) log =
      (Except.ok (match users.find? (fun u => strLower u.2 == strLower s) with
        | some u => Json.str u.1
        | none => Json.null),
       log ++ [ExtCall.linear usersQuery (Json.obj [])])
    ∧ (∃ pre post, usersQuery = pre ++ "users(first: 200)" ++ post) := by
  constructor
  · have hreq : linear_request env usersQuery (Json.obj []) log =
        (Except.ok (Json.obj [("users", Json.obj
          [("nodes", Json.arr (users.map mkUserNode))])]),
         log ++ [ExtCall.linear usersQuery (Json.obj [])]) := by
      unfold linear_request
      rw [hkey]
      simp only [Bool.true_eq_false, if_false]
      rw [hresp]
      rfl
    unfold get_user_id_by_email
    have hst : pyTruthy (Json.str s) = true := by simp [pyTruthy, hs]
    rw [hst]
    simp only [Bool.true_eq_false, if_false]
    rw [hreq]
    dsimp only
    have hget : (Json.obj [("users", Json.obj
        [("nodes", Json.arr (users.map mkUserNode))])]).dictGet "users" =
        Except.ok (Json.obj [("nodes", Json.arr (users.map mkUserNode))]) :=
      rfl
    rw [hget]
    dsimp only
    have hget2 : (pyOr (Json.obj [("nodes", Json.arr (users.map mkUserNode))])
        (Json.obj [])).dictGet "nodes" =
        Except.ok (Json.arr (users.map mkUserNode)) := rfl
    rw [hget2]
    dsimp only
    rw [pyOr_arr_nil]
    dsimp only
    rw [findUser_map]
  · exact ⟨"\n    \x7b\n      ",
      " \x7b\n        nodes \x7b id email \x7d\n      \x7d\n    \x7d\n    ",
      rfl⟩

/-- Witness for C7 at the concrete world `envW`, whose page holds one user
`U1` with email `A@B.com`: looking up `a@b.com` issues one users query and
finds `U1` case-insensitively. -/
theorem claim_C7_witness :
    get_user_id_by_email envW (Json.str "a@b.com") [] =
      (Except.ok (Json.str "U1"),
        [ExtCall.linear usersQuery (Json.obj [])]) :=
by
  rw [(claim_C7_user_resolver envW "a@b.com" [] [("U1", "A@B.com")]
    (by decide) (by decide) rfl).1]
  rfl

/-! ## Claims C5, C9, C10 — normalization fallbacks and empty strings -/

theorem lookupKey_eraseKey_self (kvs : List (String × Json)) (k : String) :
    lookupKey (eraseKey kvs k) k = none := by
  induction kvs with
  | nil => rfl
  | cons kv rest ih =>
      by_cases h : kv.1 = k
      · simpa [eraseKey, h] using ih
      · simpa [eraseKey, lookupKey, h] using ih

theorem lookupKey_eraseKey_ne (kvs : List (String × Json)) (k k2 : String)
    (h : k2 ≠ k) :
    lookupKey (eraseKey kvs k) k2 = lookupKey kvs k2 := by
  induction kvs with
  | nil => rfl
  | cons kv rest ih =>
      by_cases hk : kv.1 = k
      · have hcond : (kv.1 != k) = false := by simp [hk]
        simp only [eraseKey, List.filter_cons] at ih ⊢
        rw [hcond]
        simp only [Bool.false_eq_true, if_false]
        rw [ih]
        simp only [lookupKey]
        rw [if_neg (fun hh => h (hh.symm.trans hk))]
      · have hcond : (kv.1 != k) = true := by simp [hk]
        simp only [eraseKey, List.filter_cons] at ih ⊢
        rw [hcond]
        simp only [if_true]
        by_cases h2 : kv.1 = k2 <;> simp [lookupKey, h2, ih]

/-- **C5 counterexample**: with `FIELDS = {"TITLE": "", "SUBJECT": "S"}`, the
first *present* value in the claimed order is the bound empty string, but the
code's title is `"S"` — an empty string falls through the fallback chain, so
the claim's "first present value" reading is false. -/
theorem claim_C5_counterexample :
    claimedTitleC5 [] [("TITLE", Json.str ""), ("SUBJECT", Json.str "S")] =
      Json.str ""
    ∧ computeTitle (Json.obj [])
        (Json.obj [("TITLE", Json.str ""), ("SUBJECT", Json.str "S")]) =
        Except.ok (Json.str "S")
    ∧ Json.str "S" ≠ Json.str "" := by
  refine ⟨rfl, rfl, fun h => ?_⟩
  have := Json.str.inj h
  simp at this

/-- **C5 (amended)**: for every inbound event with object-shaped payload and
field set, the issue title equals the first present *and truthy (non-empty)*
value in the order `FIELDS.TITLE`, `FIELDS.SUBJECT`, top-level `title`, and
the fixed literal default `"Item do Bitrix24"` when none of the three is
present and truthy. -/
theorem claim_C5_amended (pkvs kvs : List (String × Json)) :
    computeTitle (Json.obj pkvs) (Json.obj kvs) =
      Except.ok (firstTruthy
        [(lookupKey kvs "TITLE").getD Json.null,
         (lookupKey kvs "SUBJECT").getD Json.null,
         (lookupKey pkvs "title").getD Json.null]
        (Json.str "Item do Bitrix24")) := rfl

/-- **C9 counterexample**: an `ATTACHMENT_URLS` value that is the *empty*
string is a single string, yet the pipeline processes the empty list, not the
one-element list `[""]` the claim requires. -/
theorem claim_C9_counterexample :
    computeAttachmentUrls (Json.obj [("ATTACHMENT_URLS", Json.str "")]) =
      Except.ok (Json.arr [])
    ∧ (Except.ok (Json.arr []) : Except PyErr Json) ≠
        Except.ok (Json.arr [Json.str ""]) := by
  refine ⟨rfl, fun h => ?_⟩
  have := Json.arr.inj (Except.ok.inj h)
  simp at this

/-- **C9 (amended)**: a single *non-empty* string value of
`FIELDS.ATTACHMENT_URLS` is processed as a one-element list; an absent, null
or otherwise falsy value — including the empty string — is processed as the
empty list, and looping over no URLs mirrors no attachments and makes no
calls. -/
theorem claim_C9_amended (kvs : List (String × Json)) :
    (∀ u, lookupKey kvs "ATTACHMENT_URLS" = some (Json.str u) → u ≠ "" →
        computeAttachmentUrls (Json.obj kvs) =
          Except.ok (Json.arr [Json.str u]))
    ∧ (pyTruthy ((lookupKey kvs "ATTACHMENT_URLS").getD Json.null) = false →
        computeAttachmentUrls (Json.obj kvs) = Except.ok (Json.arr []))
    ∧ (∀ env iid log, attachLoop env iid [] log = (Except.ok [], log)) := by
  refine ⟨?_, ?_, fun env iid log => rfl⟩
  · intro u hu hne
    unfold computeAttachmentUrls
    dsimp only [Json.dictGet]
    rw [hu]
    dsimp only [Option.getD]
    rw [pyOr_of_truthy _ (by simp [pyTruthy, hne])]
  · intro hf
    unfold computeAttachmentUrls
    dsimp only [Json.dictGet]
    rw [pyOr_of_falsy _ hf]

/-- Witness for the amended C9: a one-element promotion at a concrete
non-empty string. -/
theorem claim_C9_amended_witness :
    computeAttachmentUrls (Json.obj [("ATTACHMENT_URLS", Json.str "http://x/f")]) =
      Except.ok (Json.arr [Json.str "http://x/f"]) :=
  (claim_C9_amended [("ATTACHMENT_URLS", Json.str "http://x/f")]).1
    "http://x/f" rfl (by decide)

/-- **C10**: an empty-string field value behaves like an absent key
throughout normalization: an empty `TITLE` falls through exactly as if the key
were deleted, an empty `COMMENTS` yields the fixed default description, an
empty `ASSIGNEE_EMAIL` skips the user lookup (no call is made) and resolves no
assignee, an empty `ATTACHMENT_URLS` yields the empty list, and an
empty-string entry inside the URL list is skipped without any download,
upload, or link call. -/
theorem claim_C10_empty_string_as_absent
    (payload : Json) (kvs : List (String × Json)) (env : Env) (iid : Json)
    (rest : List Json) (log : List ExtCall) :
    (lookupKey kvs "TITLE" = some (Json.str "") →
        computeTitle payload (Json.obj kvs) =
          computeTitle payload (Json.obj (eraseKey kvs "TITLE")))
    ∧ (lookupKey kvs "COMMENTS" = some (Json.str "") →
        computeDescription (Json.obj kvs) =
          Except.ok (Json.str "Criado automaticamente pelo Bitrix24."))
    ∧ (lookupKey kvs "ASSIGNEE_EMAIL" = some (Json.str "") →
        resolveAssignee env (Json.obj kvs) log =
          (Except.ok (Json.str "", Json.null), log))
    ∧ (lookupKey kvs "ATTACHMENT_URLS" = some (Json.str "") →
        computeAttachmentUrls (Json.obj kvs) = Except.ok (Json.arr []))
    ∧ attachLoop env iid (Json.str "" :: rest) log =
        attachLoop env iid rest log := by
  refine ⟨?_, ?_, ?_, ?_, ?_⟩
  · intro h
    cases payload with
    | obj pkvs =>
        unfold computeTitle
        dsimp only [Json.dictGet]
        rw [h, lookupKey_eraseKey_self,
          lookupKey_eraseKey_ne kvs "TITLE" "SUBJECT" (by decide)]
        dsimp only [Option.getD]
        rw [pyOr_empty_str, pyOr_null]
    | null => rfl
    | bool b => rfl
    | num n => rfl
    | str st => rfl
    | arr xs => rfl
  · intro h
    unfold computeDescription
    dsimp only [Json.dictGet]
    rw [h]
    dsimp only [Option.getD]
    rw [pyOr_of_falsy _ (by decide)]
  · intro h
    unfold resolveAssignee
    dsimp only [Json.dictGet]
    rw [h]
    rfl
  · intro h
    unfold computeAttachmentUrls
    dsimp only [Json.dictGet]
    rw [h]
    rfl
  · rfl

/-- Witness for C10 at a concrete field set binding all four fields to the
empty string. -/
theorem claim_C10_witness :
    computeTitle (Json.obj []) (Json.obj emptyFieldsW) =
      computeTitle (Json.obj []) (Json.obj (eraseKey emptyFieldsW "TITLE"))
    ∧ computeDescription (Json.obj emptyFieldsW) =
        Except.ok (Json.str "Criado automaticamente pelo Bitrix24.")
    ∧ resolveAssignee envW (Json.obj emptyFieldsW) [] =
        (Except.ok (Json.str "", Json.null), [])
    ∧ computeAttachmentUrls (Json.obj emptyFieldsW) = Except.ok (Json.arr [])
    ∧ attachLoop envW (Json.str "I1") [Json.str ""] [] =
        attachLoop envW (Json.str "I1") [] [] := by
  obtain ⟨h1, h2, h3, h4, h5⟩ := claim_C10_empty_string_as_absent
    (Json.obj []) emptyFieldsW envW (Json.str "I1") [] []
  exact ⟨h1 rfl, h2 rfl, h3 rfl, h4 rfl, h5⟩

/-! ## Claim C8 — mirrored attachment public URL -/

/-- **C8**: for every successfully downloaded attachment URL (non-empty URL,
2xx response) whose storage upload and issue link succeed, the public URL the
pipeline produces equals the configured public base URL with trailing slashes
stripped, concatenated with `/` and the storage key `attachments/<filename>`,
where the filename is the last segment of the URL's path component as
`urlparse` yields it (query string and fragment stripped by the parse, and,
for params-carrying schemes such as `http`, the `;params` suffix of the last
segment dropped too), or the literal `"ficheiro"` when that segment is
empty. -/
theorem claim_C8_public_url (env : Env) (iid : Json) (s : String)
    (rest : List Json) (log : List ExtCall)
    (st : Nat) (body : List Nat) (ct : Option String) (created2 : List String)
    (l2 : List ExtCall)
    (hs : s ≠ "")
    (hdl : env.httpGet s = DlResult.resp st body ct)
    (h2a : 200 ≤ st) (h2b : st < 300)
    (hr2 : r2Complete env = true)
    (hkey : optStrTruthy env.linearApiKey = true)
    (hput : env.r2Put ("attachments/" ++ deriveFilename s) body (finalCT ct) =
      none)
    (hlink : linearOk env mutationAttach
      (attachVars iid (deriveFilename s) (pubUrl env s)))
    (hrest : attachLoop env iid rest (log ++ [ExtCall.download s,
        ExtCall.r2put ("attachments/" ++ deriveFilename s) body (finalCT ct),
        ExtCall.linear mutationAttach
          (attachVars iid (deriveFilename s) (pubUrl env s))]) =
      (Except.ok created2, l2)) :
    (attachLoop env iid (Json.str s :: rest) log).1 =
      Except.ok (pubUrl env s :: created2)
    ∧ pubUrl env s =
        rstrip (env.r2PublicBaseUrl.getD "") '/' ++ "/" ++
          ("attachments/" ++
            (if posixBasename (urlparsePath s) = "" then "ficheiro"
             else posixBasename (urlparsePath s))) := by
  constructor
  · have hst : pyTruthy (Json.str s) = true := by simp [pyTruthy, hs]
    unfold attachLoop
    rw [hst]
    simp only [Bool.true_eq_false, if_false]
    rw [hdl]
    dsimp only
    rw [if_neg (by omega)]
    have hput2 : env.r2Put ("attachments/" ++ deriveFilename s) body
        (if ct.getD "application/octet-stream" = "" then
          "application/octet-stream"
         else ct.getD "application/octet-stream") = none := hput
    have hup : upload_to_r2 env body (deriveFilename s)
        (some (ct.getD "application/octet-stream"))
        (log ++ [ExtCall.download s]) =
        (Except.ok (pubUrl env s),
         (log ++ [ExtCall.download s]) ++
           [ExtCall.r2put ("attachments/" ++ deriveFilename s) body
             (finalCT ct)]) := by
      unfold upload_to_r2
      rw [hr2]
      simp only [Bool.true_eq_false, if_false]
      rw [hput2]
      rfl
    rw [hup]
    dsimp only
    obtain ⟨kvs, d, hresp, herrs, hdata⟩ := hlink
    have hlin : linear_request env mutationAttach
        (attachVars iid (deriveFilename s) (pubUrl env s))
        ((log ++ [ExtCall.download s]) ++
          [ExtCall.r2put ("attachments/" ++ deriveFilename s) body
            (finalCT ct)]) =
        (Except.ok d,
         ((log ++ [ExtCall.download s]) ++
           [ExtCall.r2put ("attachments/" ++ deriveFilename s) body
             (finalCT ct)]) ++
           [ExtCall.linear mutationAttach
             (attachVars iid (deriveFilename s) (pubUrl env s))]) := by
      unfold linear_request
      rw [hkey]
      simp only [Bool.true_eq_false, if_false]
      rw [hresp]
      unfold interpretLinearResponse
      dsimp only [Json.dictGet]
      rw [herrs]
      simp only [Bool.false_eq_true, if_false]
      dsimp only [Json.dictIndex]
      rw [hdata]
    rw [hlin]
    dsimp only
    rw [show ((log ++ [ExtCall.download s]) ++
        [ExtCall.r2put ("attachments/" ++ deriveFilename s) body
          (finalCT ct)]) ++
        [ExtCall.linear mutationAttach
          (attachVars iid (deriveFilename s) (pubUrl env s))] =
        log ++ [ExtCall.download s,
          ExtCall.r2put ("attachments/" ++ deriveFilename s) body (finalCT ct),
          ExtCall.linear mutationAttach
            (attachVars iid (deriveFilename s) (pubUrl env s))] by
      simp]
    rw [hrest]
  · rfl

/-- Witness for C8: mirroring `http://x/file.pdf` in the concrete world
produces exactly `https://pub-x.r2.dev/attachments/file.pdf`. -/
theorem claim_C8_witness :
    (attachLoop envW (Json.str "I1") [Json.str "http://x/file.pdf"] []).1 =
      Except.ok ["https://pub-x.r2.dev/attachments/file.pdf"] := by
  have h := claim_C8_public_url envW (Json.str "I1") "http://x/file.pdf" [] []
    200 [1, 2, 3] (some "application/pdf") []
    ([] ++ [ExtCall.download "http://x/file.pdf",
      ExtCall.r2put "attachments/file.pdf" [1, 2, 3] "application/pdf",
      ExtCall.linear mutationAttach (attachVars (Json.str "I1") "file.pdf"
        (pubUrl envW "http://x/file.pdf"))])
    (by decide) rfl (by decide) (by decide) (by decide) (by decide) rfl
    ⟨[("data", Json.obj [("attachmentCreate", Json.obj
        [("success", Json.bool true)])])],
      Json.obj [("attachmentCreate", Json.obj [("success", Json.bool true)])],
      rfl, rfl, rfl⟩
    rfl
  rw [h.1]
  rfl

/-! ## Loop lemmas shared by the attachment claims -/

/-- A URL whose download fails is skipped: the loop continues with the
remaining URLs, having recorded only the download attempt. -/
theorem attachLoop_skip (env : Env) (iid : Json) (s : String)
    (rest : List Json) (log : List ExtCall) (hs : s ≠ "")
    (hfail : dlFails env s) :
    attachLoop env iid (Json.str s :: rest) log =
      attachLoop env iid rest (log ++ [ExtCall.download s]) := by
  have hst : pyTruthy (Json.str s) = true := by simp [pyTruthy, hs]
  unfold dlFails at hfail
  conv_lhs => unfold attachLoop
  rw [hst]
  simp only [Bool.true_eq_false, if_false]
  cases hdl : env.httpGet s with
  | exn m => rfl
  | resp st body ct =>
      rw [hdl] at hfail
      dsimp only
      rw [if_pos hfail]

/-- A URL whose download succeeds but whose R2 `put_object` raises aborts the
whole loop with that exception. -/
theorem attachLoop_upload_abort (env : Env) (iid : Json) (s : String)
    (rest : List Json) (log : List ExtCall) (st : Nat) (body : List Nat)
    (ct : Option String) (msg : String) (hs : s ≠ "")
    (hdl : env.httpGet s = DlResult.resp st body ct)
    (h2a : 200 ≤ st) (h2b : st < 300) (hr2 : r2Complete env = true)
    (hput : env.r2Put ("attachments/" ++ deriveFilename s) body (finalCT ct) =
      some msg) :
    attachLoop env iid (Json.str s :: rest) log =
      (Except.error (PyErr.exn msg),
       log ++ [ExtCall.download s,
         ExtCall.r2put ("attachments/" ++ deriveFilename s) body
           (finalCT ct)]) := by
  have hst : pyTruthy (Json.str s) = true := by simp [pyTruthy, hs]
  unfold attachLoop
  rw [hst]
  simp only [Bool.true_eq_false, if_false]
  rw [hdl]
  dsimp only
  rw [if_neg (by omega)]
  have hput2 : env.r2Put ("attachments/" ++ deriveFilename s) body
      (if ct.getD "application/octet-stream" = "" then
        "application/octet-stream"
       else ct.getD "application/octet-stream") = some msg := hput
  have hup : upload_to_r2 env body (deriveFilename s)
      (some (ct.getD "application/octet-stream"))
      (log ++ [ExtCall.download s]) =
      (Except.error (PyErr.exn msg),
       (log ++ [ExtCall.download s]) ++
         [ExtCall.r2put ("attachments/" ++ deriveFilename s) body
           (finalCT ct)]) := by
    unfold upload_to_r2
    rw [hr2]
    simp only [Bool.true_eq_false, if_false]
    rw [hput2]
    rfl
  rw [hup]
  dsimp only
  simp

/-- A URL whose download and storage upload succeed but whose
attachment-creation mutation comes back with a truthy error list aborts the
whole loop with the 502 application error carrying that list. -/
theorem attachLoop_link_abort (env : Env) (iid : Json) (s : String)
    (rest : List Json) (log : List ExtCall) (st : Nat) (body : List Nat)
    (ct : Option String) (kvs : List (String × Json)) (e : Json)
    (hs : s ≠ "") (hkey : optStrTruthy env.linearApiKey = true)
    (hdl : env.httpGet s = DlResult.resp st body ct)
    (h2a : 200 ≤ st) (h2b : st < 300) (hr2 : r2Complete env = true)
    (hput : env.r2Put ("attachments/" ++ deriveFilename s) body (finalCT ct) =
      none)
    (hresp : env.linearRespond mutationAttach
      (attachVars iid (deriveFilename s) (pubUrl env s)) =
      RawResp.parsed (Json.obj kvs))
    (herr : lookupKey kvs "errors" = some e) (hte : pyTruthy e = true) :
    attachLoop env iid (Json.str s :: rest) log =
      (Except.error (PyErr.http 502 (Json.obj [("linear_errors", e)])),
       log ++ [ExtCall.download s,
         ExtCall.r2put ("attachments/" ++ deriveFilename s) body (finalCT ct),
         ExtCall.linear mutationAttach
           (attachVars iid (deriveFilename s) (pubUrl env s))]) := by
  have hst : pyTruthy (Json.str s) = true := by simp [pyTruthy, hs]
  unfold attachLoop
  rw [hst]
  simp only [Bool.true_eq_false, if_false]
  rw [hdl]
  dsimp only
  rw [if_neg (by omega)]
  have hput2 : env.r2Put ("attachments/" ++ deriveFilename s) body
      (if ct.getD "application/octet-stream" = "" then
        "application/octet-stream"
       else ct.getD "application/octet-stream") = none := hput
  have hup : upload_to_r2 env body (deriveFilename s)
      (some (ct.getD "application/octet-stream"))
      (log ++ [ExtCall.download s]) =
      (Except.ok (pubUrl env s),
       (log ++ [ExtCall.download s]) ++
         [ExtCall.r2put ("attachments/" ++ deriveFilename s) body
           (finalCT ct)]) := by
    unfold upload_to_r2
    rw [hr2]
    simp only [Bool.true_eq_false, if_false]
    rw [hput2]
    rfl
  rw [hup]
  dsimp only
  have hlin : linear_request env mutationAttach
      (attachVars iid (deriveFilename s) (pubUrl env s))
      ((log ++ [ExtCall.download s]) ++
        [ExtCall.r2put ("attachments/" ++ deriveFilename s) body
          (finalCT ct)]) =
      (Except.error (PyErr.http 502 (Json.obj [("linear_errors", e)])),
       ((log ++ [ExtCall.download s]) ++
         [ExtCall.r2put ("attachments/" ++ deriveFilename s) body
           (finalCT ct)]) ++
         [ExtCall.linear mutationAttach
           (attachVars iid (deriveFilename s) (pubUrl env s))]) := by
    unfold linear_request
    rw [hkey]
    simp only [Bool.true_eq_false, if_false]
    rw [hresp]
    unfold interpretLinearResponse
    dsimp only [Json.dictGet]
    rw [herr]
    dsimp only [Option.getD]
    rw [if_pos hte]
  rw [hlin]
  dsimp only
  simp

/-- A URL whose mirroring succeeds end to end contributes its public URL at
the head of the loop's result; the loop then continues on the remaining URLs
from some extended log. -/
theorem attachLoop_cons_ok (env : Env) (iid : Json) (s : String)
    (rest : List Json) (log : List ExtCall)
    (hkey : optStrTruthy env.linearApiKey = true)
    (hr2 : r2Complete env = true) (hmir : mirrorOk env iid s) :
    ∃ l1, (attachLoop env iid (Json.str s :: rest) log).1 =
      (match (attachLoop env iid rest l1).1 with
       | Except.ok created => Except.ok (pubUrl env s :: created)
       | Except.error e => Except.error e) := by
  obtain ⟨hs, st, body, ct, hdl, h2a, h2b, hput, hlink⟩ := hmir
  refine ⟨log ++ [ExtCall.download s,
    ExtCall.r2put ("attachments/" ++ deriveFilename s) body (finalCT ct),
    ExtCall.linear mutationAttach
      (attachVars iid (deriveFilename s) (pubUrl env s))], ?_⟩
  have hst : pyTruthy (Json.str s) = true := by simp [pyTruthy, hs]
  conv_lhs => unfold attachLoop
  rw [hst]
  simp only [Bool.true_eq_false, if_false]
  rw [hdl]
  dsimp only
  rw [if_neg (by omega)]
  have hput2 : env.r2Put ("attachments/" ++ deriveFilename s) body
      (if ct.getD "application/octet-stream" = "" then
        "application/octet-stream"
       else ct.getD "application/octet-stream") = none := hput
  have hup : upload_to_r2 env body (deriveFilename s)
      (some (ct.getD "application/octet-stream"))
      (log ++ [ExtCall.download s]) =
      (Except.ok (pubUrl env s),
       (log ++ [ExtCall.download s]) ++
         [ExtCall.r2put ("attachments/" ++ deriveFilename s) body
           (finalCT ct)]) := by
    unfold upload_to_r2
    rw [hr2]
    simp only [Bool.true_eq_false, if_false]
    rw [hput2]
    rfl
  rw [hup]
  dsimp only
  obtain ⟨kvs, d, hresp, herrs, hdata⟩ := hlink
  have hlin : linear_request env mutationAttach
      (attachVars iid (deriveFilename s) (pubUrl env s))
      ((log ++ [ExtCall.download s]) ++
        [ExtCall.r2put ("attachments/" ++ deriveFilename s) body
          (finalCT ct)]) =
      (Except.ok d,
       ((log ++ [ExtCall.download s]) ++
         [ExtCall.r2put ("attachments/" ++ deriveFilename s) body
           (finalCT ct)]) ++
         [ExtCall.linear mutationAttach
           (attachVars iid (deriveFilename s) (pubUrl env s))]) := by
    unfold linear_request
    rw [hkey]
    simp only [Bool.true_eq_false, if_false]
    rw [hresp]
    unfold interpretLinearResponse
    dsimp only [Json.dictGet]
    rw [herrs]
    simp only [Bool.false_eq_true, if_false]
    dsimp only [Json.dictIndex]
    rw [hdata]
  rw [hlin]
  dsimp only
  rw [show ((log ++ [ExtCall.download s]) ++
      [ExtCall.r2put ("attachments/" ++ deriveFilename s) body
        (finalCT ct)]) ++
      [ExtCall.linear mutationAttach
        (attachVars iid (deriveFilename s) (pubUrl env s))] =
      log ++ [ExtCall.download s,
        ExtCall.r2put ("attachments/" ++ deriveFilename s) body (finalCT ct),
        ExtCall.linear mutationAttach
          (attachVars iid (deriveFilename s) (pubUrl env s))] by simp]
  rcases hrec : attachLoop env iid rest (log ++ [ExtCall.download s,
    ExtCall.r2put ("attachments/" ++ deriveFilename s) body (finalCT ct),
    ExtCall.linear mutationAttach
      (attachVars iid (deriveFilename s) (pubUrl env s))]) with ⟨r3, l3⟩
  cases r3 <;> rfl


/-- A run of the loop over URLs that all mirror successfully returns their
public URLs, in input order. -/
theorem attachLoop_all_ok (env : Env) (iid : Json)
    (hkey : optStrTruthy env.linearApiKey = true)
    (hr2 : r2Complete env = true) :
    ∀ (L : List String) (log : List ExtCall),
      (∀ s ∈ L, mirrorOk env iid s) →
      (attachLoop env iid (L.map Json.str) log).1 =
        Except.ok (L.map (pubUrl env)) := by
  intro L
  induction L with
  | nil => intro log hall; rfl
  | cons s L2 ih =>
      intro log hall
      obtain ⟨l1, hc⟩ := attachLoop_cons_ok env iid s (L2.map Json.str) log
        hkey hr2 (hall s (by simp))
      rw [List.map_cons, hc, ih l1 (fun x hx => hall x (by simp [hx]))]
      rfl

/-- A run of the loop over one failing URL among otherwise successful ones
returns all the others' public URLs, in input order. -/
theorem attachLoop_one_failure (env : Env) (iid : Json)
    (hkey : optStrTruthy env.linearApiKey = true)
    (hr2 : r2Complete env = true) :
    ∀ (A : List String) (bad : String) (B : List String)
      (log : List ExtCall),
      (∀ s ∈ A, mirrorOk env iid s) → bad ≠ "" → dlFails env bad →
      (∀ s ∈ B, mirrorOk env iid s) →
      (attachLoop env iid ((A ++ bad :: B).map Json.str) log).1 =
        Except.ok ((A ++ B).map (pubUrl env)) := by
  intro A
  induction A with
  | nil =>
      intro bad B log hA hbad hfail hB
      simp only [List.nil_append, List.map_cons]
      rw [attachLoop_skip env iid bad (B.map Json.str) log hbad hfail]
      exact attachLoop_all_ok env iid hkey hr2 B _ hB
  | cons s A2 ih =>
      intro bad B log hA hbad hfail hB
      simp only [List.cons_append, List.map_cons]
      obtain ⟨l1, hc⟩ := attachLoop_cons_ok env iid s
        ((A2 ++ bad :: B).map Json.str) log hkey hr2 (hA s (by simp))
      rw [hc, ih bad B l1 (fun x hx => hA x (by simp [hx])) hbad hfail hB]

/-! ## Claim C1 — per-item error isolation in the attachment loop -/

/-- **C1 counterexample**: in a world where issue creation succeeds, the
attachment download succeeds, and the R2 `put_object` raises, the whole
request fails with that exception — the storage-upload error is *not* caught
at the per-item granularity, and the Aborted state is reached *after* the
issue-creation call (visible in the recorded log), so the claim is false. -/
theorem claim_C1_counterexample :
    bitrix_linear envUploadFailW (mkAttachPayload ["http://x/file.pdf"]) =
      (Except.error (PyErr.exn "boom"),
       [ExtCall.linear mutationCreate (Json.obj [("input", Json.obj
          [("title", Json.str "T"),
           ("description", Json.str "Criado automaticamente pelo Bitrix24."),
           ("teamId", Json.str "team1")])]),
        ExtCall.download "http://x/file.pdf",
        ExtCall.r2put "attachments/file.pdf" [1, 2, 3] "application/pdf"]) :=
  rfl

/-- **C1 (amended)**: only errors raised while *downloading* an attachment
(request exception or non-2xx status) are caught at the per-item granularity —
the item is dropped and the loop continues with the remaining URLs, with no
further calls for that item; an error from the storage upload (here: a raising
`put_object`) or from linking the attachment (here: an attachment-creation
mutation answered with a truthy error list) is not caught and aborts the whole
request, so the Aborted state is also reachable from storage-upload or link
failures after issue creation. -/
theorem claim_C1_amended (env : Env) (iid : Json) (s : String)
    (rest : List Json) (log : List ExtCall) (hs : s ≠ "") :
    (dlFails env s →
      attachLoop env iid (Json.str s :: rest) log =
        attachLoop env iid rest (log ++ [ExtCall.download s]))
    ∧ (∀ st body ct msg, env.httpGet s = DlResult.resp st body ct →
        200 ≤ st → st < 300 → r2Complete env = true →
        env.r2Put ("attachments/" ++ deriveFilename s) body (finalCT ct) =
          some msg →
        attachLoop env iid (Json.str s :: rest) log =
          (Except.error (PyErr.exn msg),
           log ++ [ExtCall.download s,
             ExtCall.r2put ("attachments/" ++ deriveFilename s) body
               (finalCT ct)]))
    ∧ (∀ st body ct kvs e, env.httpGet s = DlResult.resp st body ct →
        200 ≤ st → st < 300 → r2Complete env = true →
        optStrTruthy env.linearApiKey = true →
        env.r2Put ("attachments/" ++ deriveFilename s) body (finalCT ct) =
          none →
        env.linearRespond mutationAttach
          (attachVars iid (deriveFilename s) (pubUrl env s)) =
          RawResp.parsed (Json.obj kvs) →
        lookupKey kvs "errors" = some e → pyTruthy e = true →
        attachLoop env iid (Json.str s :: rest) log =
          (Except.error (PyErr.http 502 (Json.obj [("linear_errors", e)])),
           log ++ [ExtCall.download s,
             ExtCall.r2put ("attachments/" ++ deriveFilename s) body
               (finalCT ct),
             ExtCall.linear mutationAttach
               (attachVars iid (deriveFilename s) (pubUrl env s))])) := by
  refine ⟨?_, ?_, ?_⟩
  · intro hfail
    exact attachLoop_skip env iid s rest log hs hfail
  · intro st body ct msg hdl h2a h2b hr2 hput
    exact attachLoop_upload_abort env iid s rest log st body ct msg hs hdl
      h2a h2b hr2 hput
  · intro st body ct kvs e hdl h2a h2b hr2 hkey hput hresp herr hte
    exact attachLoop_link_abort env iid s rest log st body ct kvs e hs hkey
      hdl h2a h2b hr2 hput hresp herr hte

/-- Witness for the amended C1: a failing download is skipped and the loop
continues; a raising `put_object` aborts with the raised error after the
download; an attachment-creation mutation answered with an error list aborts
with the 502 application error after the download and the upload. -/
theorem claim_C1_amended_witness :
    attachLoop envW (Json.str "I1") [Json.str "http://bad/x"] [] =
      attachLoop envW (Json.str "I1") [] [ExtCall.download "http://bad/x"]
    ∧ attachLoop envUploadFailW (Json.str "I1")
        [Json.str "http://x/file.pdf"] [] =
      (Except.error (PyErr.exn "boom"),
       [ExtCall.download "http://x/file.pdf",
        ExtCall.r2put "attachments/file.pdf" [1, 2, 3] "application/pdf"])
    ∧ attachLoop envAppErrW (Json.str "I1")
        [Json.str "http://x/file.pdf"] [] =
      (Except.error (PyErr.http 502 (Json.obj [("linear_errors",
         Json.arr [Json.str "invalid team id"])])),
       [ExtCall.download "http://x/file.pdf",
        ExtCall.r2put "attachments/file.pdf" [1, 2, 3] "application/pdf",
        ExtCall.linear mutationAttach (attachVars (Json.str "I1") "file.pdf"
          "https://pub-x.r2.dev/attachments/file.pdf")]) := by
  refine ⟨?_, ?_, ?_⟩
  · exact (claim_C1_amended envW (Json.str "I1") "http://bad/x" [] []
      (by decide)).1 (by exact trivial)
  · exact (claim_C1_amended envUploadFailW (Json.str "I1") "http://x/file.pdf"
      [] [] (by decide)).2.1 200 [1, 2, 3] (some "application/pdf") "boom"
      rfl (by decide) (by decide) (by decide) rfl
  · exact (claim_C1_amended envAppErrW (Json.str "I1") "http://x/file.pdf"
      [] [] (by decide)).2.2 200 [1, 2, 3] (some "application/pdf")
      [("errors", Json.arr [Json.str "invalid team id"]), ("data", Json.null)]
      (Json.arr [Json.str "invalid team id"])
      rfl (by decide) (by decide) (by decide) (by decide) rfl rfl rfl
      (by decide)

/-! ## Claim C2 — one failing download among N URLs -/

/-- **C2**: for every attachment URL list `A ++ bad :: B` in which the one URL
`bad` fails its HTTP download (request error or non-2xx status) and the other
`N-1` URLs mirror successfully, the pipeline still creates and returns the
issue (never aborts) and the response's attachment list holds exactly the
`N-1` mirrored public URLs, in input order. -/
theorem claim_C2_one_failing_url (env : Env) (A : List String) (bad : String)
    (B : List String) (issueJ iid : Json)
    (hkey : optStrTruthy env.linearApiKey = true)
    (hr2 : r2Complete env = true)
    (hcreate : env.linearRespond mutationCreate (Json.obj [("input", Json.obj
        [("title", Json.str "T"),
         ("description", Json.str "Criado automaticamente pelo Bitrix24."),
         ("teamId", jsonOfOpt env.linearTeamId)])]) =
      RawResp.parsed (Json.obj [("data", Json.obj [("issueCreate", Json.obj
        [("issue", issueJ)])])]))
    (hid : issueJ.dictIndex "id" = Except.ok iid)
    (hA : ∀ s ∈ A, mirrorOk env iid s)
    (hbad : bad ≠ "") (hfail : dlFails env bad)
    (hB : ∀ s ∈ B, mirrorOk env iid s) :
    (bitrix_linear env (mkAttachPayload (A ++ bad :: B))).1 =
      Except.ok (Json.obj [("ok", Json.bool true), ("issue", issueJ),
        ("assigneeEmail", Json.null), ("assigneeId", Json.null),
        ("attachment_urls_received",
          Json.arr ((A ++ bad :: B).map Json.str)),
        ("attachments",
          Json.arr (((A ++ B).map (pubUrl env)).map Json.str))]) := by
  have hext : extractFields (mkAttachPayload (A ++ bad :: B)) =
      Except.ok (Json.obj [("TITLE", Json.str "T"),
        ("ATTACHMENT_URLS", Json.arr ((A ++ bad :: B).map Json.str))]) := rfl
  conv_lhs => unfold bitrix_linear
  rw [hext]
  dsimp only
  rw [show computeTitle (mkAttachPayload (A ++ bad :: B))
      (Json.obj [("TITLE", Json.str "T"),
        ("ATTACHMENT_URLS", Json.arr ((A ++ bad :: B).map Json.str))]) =
      Except.ok (Json.str "T") from rfl]
  dsimp only
  rw [show computeDescription (Json.obj [("TITLE", Json.str "T"),
      ("ATTACHMENT_URLS", Json.arr ((A ++ bad :: B).map Json.str))]) =
      Except.ok (Json.str "Criado automaticamente pelo Bitrix24.") from rfl]
  dsimp only
  rw [show resolveAssignee env (Json.obj [("TITLE", Json.str "T"),
      ("ATTACHMENT_URLS", Json.arr ((A ++ bad :: B).map Json.str))]) [] =
      (Except.ok (Json.null, Json.null), []) from rfl]
  dsimp only
  have htr : pyTruthy (Json.arr ((A ++ bad :: B).map Json.str)) = true := by
    simp [pyTruthy]
  have hurls : computeAttachmentUrls (Json.obj [("TITLE", Json.str "T"),
      ("ATTACHMENT_URLS", Json.arr ((A ++ bad :: B).map Json.str))]) =
      Except.ok (Json.arr ((A ++ bad :: B).map Json.str)) := by
    unfold computeAttachmentUrls
    rw [show (Json.obj [("TITLE", Json.str "T"),
        ("ATTACHMENT_URLS", Json.arr ((A ++ bad :: B).map Json.str))]).dictGet
        "ATTACHMENT_URLS" =
        Except.ok (Json.arr ((A ++ bad :: B).map Json.str)) from rfl]
    dsimp only
    rw [pyOr_of_truthy _ htr]
  rw [hurls]
  dsimp only
  rw [show buildIssueInput env (Json.str "T")
      (Json.str "Criado automaticamente pelo Bitrix24.") Json.null =
      Json.obj [("title", Json.str "T"),
        ("description", Json.str "Criado automaticamente pelo Bitrix24."),
        ("teamId", jsonOfOpt env.linearTeamId)] from rfl]
  have hreq : linear_request env mutationCreate (Json.obj [("input",
      Json.obj [("title", Json.str "T"),
        ("description", Json.str "Criado automaticamente pelo Bitrix24."),
        ("teamId", jsonOfOpt env.linearTeamId)])]) [] =
      (Except.ok (Json.obj [("issueCreate", Json.obj [("issue", issueJ)])]),
       [ExtCall.linear mutationCreate (Json.obj [("input",
         Json.obj [("title", Json.str "T"),
           ("description", Json.str "Criado automaticamente pelo Bitrix24."),
           ("teamId", jsonOfOpt env.linearTeamId)])])]) := by
    unfold linear_request
    rw [hkey]
    simp only [Bool.true_eq_false, if_false]
    rw [hcreate]
    rfl
  rw [hreq]
  dsimp only
  rw [show (Json.obj [("issueCreate", Json.obj
      [("issue", issueJ)])]).dictIndex "issueCreate" =
      Except.ok (Json.obj [("issue", issueJ)]) from rfl]
  dsimp only
  rw [show (Json.obj [("issue", issueJ)]).dictIndex "issue" =
      Except.ok issueJ from rfl]
  dsimp only
  rw [hid]
  dsimp only
  rw [if_pos htr]
  rw [show iterElems (Json.arr ((A ++ bad :: B).map Json.str)) =
      Except.ok ((A ++ bad :: B).map Json.str) from rfl]
  dsimp only
  rcases hloop : attachLoop env iid ((A ++ bad :: B).map Json.str)
      [ExtCall.linear mutationCreate (Json.obj [("input",
        Json.obj [("title", Json.str "T"),
          ("description", Json.str "Criado automaticamente pelo Bitrix24."),
          ("teamId", jsonOfOpt env.linearTeamId)])])] with ⟨r, l⟩
  have hr : r = Except.ok ((A ++ B).map (pubUrl env)) := by
    have h := attachLoop_one_failure env iid hkey hr2 A bad B
      [ExtCall.linear mutationCreate (Json.obj [("input",
        Json.obj [("title", Json.str "T"),
          ("description", Json.str "Criado automaticamente pelo Bitrix24."),
          ("teamId", jsonOfOpt env.linearTeamId)])])] hA hbad hfail hB
    rw [hloop] at h
    exact h
  subst hr
  rfl

/-- Witness for C2: of three URLs the middle one's download fails; the
response still carries the issue and exactly the two mirrored public URLs in
input order. -/
theorem claim_C2_witness :
    (bitrix_linear envC2W (mkAttachPayload
      ["http://h/a.pdf", "http://bad/x", "http://h/b.pdf"])).1 =
      Except.ok (Json.obj [("ok", Json.bool true), ("issue", issueW),
        ("assigneeEmail", Json.null), ("assigneeId", Json.null),
        ("attachment_urls_received", Json.arr [Json.str "http://h/a.pdf",
          Json.str "http://bad/x", Json.str "http://h/b.pdf"]),
        ("attachments", Json.arr
          [Json.str "https://pub-x.r2.dev/attachments/a.pdf",
           Json.str "https://pub-x.r2.dev/attachments/b.pdf"])]) := by
  have hA : ∀ s ∈ ["http://h/a.pdf"], mirrorOk envC2W (Json.str "I1") s := by
    intro s hs
    rw [List.mem_singleton] at hs
    subst hs
    exact ⟨by decide, 200, [4], some "application/pdf", rfl, by decide,
      by decide, rfl,
      ⟨[("data", Json.obj [("attachmentCreate", Json.obj
          [("success", Json.bool true)])])],
        Json.obj [("attachmentCreate", Json.obj [("success", Json.bool true)])],
        rfl, rfl, rfl⟩⟩
  have hB : ∀ s ∈ ["http://h/b.pdf"], mirrorOk envC2W (Json.str "I1") s := by
    intro s hs
    rw [List.mem_singleton] at hs
    subst hs
    exact ⟨by decide, 200, [5], none, rfl, by decide, by decide, rfl,
      ⟨[("data", Json.obj [("attachmentCreate", Json.obj
          [("success", Json.bool true)])])],
        Json.obj [("attachmentCreate", Json.obj [("success", Json.bool true)])],
        rfl, rfl, rfl⟩⟩
  have h := claim_C2_one_failing_url envC2W ["http://h/a.pdf"] "http://bad/x"
    ["http://h/b.pdf"] issueW (Json.str "I1") (by decide) (by decide) rfl rfl
    hA (by decide) (by exact trivial) hB
  exact h

/-! ## Claim C6 — absent assignee email -/

/-- **C6**: for every inbound event whose field set carries no truthy
`ASSIGNEE_EMAIL` value (key absent, null, or empty string), the run never
issues the user-lookup query (no recorded call carries `usersQuery`), every
issue-creation call carries exactly `title`, `description` and `teamId` — no
`assigneeId` key — and a successful response reports `assigneeId = null`. -/
theorem claim_C6_no_assignee (env : Env) (payload : Json)
    (kvs : List (String × Json))
    (hf : extractFields payload = Except.ok (Json.obj kvs))
    (hae : pyTruthy ((lookupKey kvs "ASSIGNEE_EMAIL").getD Json.null) =
      false) :
    (∀ v, ExtCall.linear usersQuery v ∉ (bitrix_linear env payload).2)
    ∧ (∀ v, ExtCall.linear mutationCreate v ∈ (bitrix_linear env payload).2 →
        ∃ title desc,
          v = Json.obj [("input", Json.obj [("title", title),
            ("description", desc), ("teamId", jsonOfOpt env.linearTeamId)])] ∧
          lookupKey [("title", title), ("description", desc),
            ("teamId", jsonOfOpt env.linearTeamId)] "assigneeId" = none)
    ∧ (∀ resp, (bitrix_linear env payload).1 = Except.ok resp →
        resp.dictGet "assigneeId" = Except.ok Json.null) := by
  have hqc : usersQuery ≠ mutationCreate := by decide
  have hqa : usersQuery ≠ mutationAttach := by decide
  have hra : resolveAssignee env (Json.obj kvs) [] =
      (Except.ok ((lookupKey kvs "ASSIGNEE_EMAIL").getD Json.null,
        Json.null), []) := by
    unfold resolveAssignee
    dsimp only [Json.dictGet]
    rw [hae]
    simp only [Bool.false_eq_true, if_false]
  unfold bitrix_linear
  rw [hf]
  dsimp only
  cases ht : computeTitle payload (Json.obj kvs) with
  | error e => exact ⟨by simp, by simp, fun resp h => by cases h⟩
  | ok title =>
  dsimp only
  cases hd : computeDescription (Json.obj kvs) with
  | error e => exact ⟨by simp, by simp, fun resp h => by cases h⟩
  | ok desc =>
  dsimp only
  rw [hra]
  dsimp only
  cases hu : computeAttachmentUrls (Json.obj kvs) with
  | error e => exact ⟨by simp, by simp, fun resp h => by cases h⟩
  | ok urls =>
  dsimp only
  rcases hreq : linear_request env mutationCreate
      (Json.obj [("input", buildIssueInput env title desc Json.null)]) []
      with ⟨rc, lc⟩
  have hlc : ∀ c ∈ lc, c = ExtCall.linear mutationCreate
      (Json.obj [("input", buildIssueInput env title desc Json.null)]) := by
    intro c hc
    have := linear_request_mem env mutationCreate
      (Json.obj [("input", buildIssueInput env title desc Json.null)]) [] c
      (by rw [hreq]; exact hc)
    rcases this with h | h
    · exact absurd h (List.not_mem_nil c)
    · exact h
  have hinput : buildIssueInput env title desc Json.null =
      Json.obj [("title", title), ("description", desc),
        ("teamId", jsonOfOpt env.linearTeamId)] := rfl
  have conj1lc : ∀ v, ExtCall.linear usersQuery v ∉ lc := by
    intro v hv
    have := hlc _ hv
    have hq := congrArg (fun c => match c with
      | ExtCall.linear q _ => q
      | _ => "") this
    exact hqc hq
  have conj2lc : ∀ v, ExtCall.linear mutationCreate v ∈ lc →
      ∃ title2 desc2,
        v = Json.obj [("input", Json.obj [("title", title2),
          ("description", desc2), ("teamId", jsonOfOpt env.linearTeamId)])] ∧
        lookupKey [("title", title2), ("description", desc2),
          ("teamId", jsonOfOpt env.linearTeamId)] "assigneeId" = none := by
    intro v hv
    have heq := hlc _ hv
    have hv2 : v = Json.obj [("input", buildIssueInput env title desc
        Json.null)] := by
      have := congrArg (fun c => match c with
        | ExtCall.linear _ w => w
        | _ => Json.null) heq
      exact this
    refine ⟨title, desc, ?_, rfl⟩
    rw [hv2, hinput]
  cases rc with
  | error e =>
      exact ⟨conj1lc, conj2lc, fun resp h => by cases h⟩
  | ok dataCreate =>
  dsimp only
  cases hic : dataCreate.dictIndex "issueCreate" with
  | error e => exact ⟨conj1lc, conj2lc, fun resp h => by cases h⟩
  | ok issueCreate =>
  dsimp only
  cases hie : issueCreate.dictIndex "issue" with
  | error e => exact ⟨conj1lc, conj2lc, fun resp h => by cases h⟩
  | ok issue =>
  dsimp only
  cases hiid : issue.dictIndex "id" with
  | error e => exact ⟨conj1lc, conj2lc, fun resp h => by cases h⟩
  | ok iid =>
  dsimp only
  by_cases hturls : pyTruthy urls = true
  · rw [if_pos hturls]
    cases hel : iterElems urls with
    | error e => exact ⟨conj1lc, conj2lc, fun resp h => by cases h⟩
    | ok elems =>
    dsimp only
    rcases hloop : attachLoop env iid elems lc with ⟨rl, ll⟩
    have hll : ∀ c ∈ ll, c ∈ lc ∨ (∃ u, c = ExtCall.download u) ∨
        (∃ k b ct, c = ExtCall.r2put k b ct) ∨
        (∃ v, c = ExtCall.linear mutationAttach v) := by
      intro c hc
      exact attachLoop_mem env iid elems lc c (by rw [hloop]; exact hc)
    have conj1ll : ∀ v, ExtCall.linear usersQuery v ∉ ll := by
      intro v hv
      rcases hll _ hv with h | ⟨u, h⟩ | ⟨k, b, ct, h⟩ | ⟨w, h⟩
      · exact conj1lc v h
      · cases h
      · cases h
      · have hq := congrArg (fun c => match c with
          | ExtCall.linear q _ => q
          | _ => "") h
        exact hqa hq
    have conj2ll : ∀ v, ExtCall.linear mutationCreate v ∈ ll →
        ∃ title2 desc2,
          v = Json.obj [("input", Json.obj [("title", title2),
            ("description", desc2),
            ("teamId", jsonOfOpt env.linearTeamId)])] ∧
          lookupKey [("title", title2), ("description", desc2),
            ("teamId", jsonOfOpt env.linearTeamId)] "assigneeId" = none := by
      intro v hv
      rcases hll _ hv with h | ⟨u, h⟩ | ⟨k, b, ct, h⟩ | ⟨w, h⟩
      · exact conj2lc v h
      · cases h
      · cases h
      · have hq : mutationCreate = mutationAttach := congrArg (fun c =>
          match c with
          | ExtCall.linear q _ => q
          | _ => "") h
        exact absurd hq (by decide)
    cases rl with
    | error e => exact ⟨conj1ll, conj2ll, fun resp h => by cases h⟩
    | ok created =>
        refine ⟨conj1ll, conj2ll, fun resp h => ?_⟩
        have := Except.ok.inj h
        subst this
        rfl
  · rw [if_neg hturls]
    refine ⟨conj1lc, conj2lc, fun resp h => ?_⟩
    have := Except.ok.inj h
    subst this
    rfl

/-- Witness for C6 at the concrete world and an event with no
`ASSIGNEE_EMAIL`: no users query is issued, the creation input has no
`assigneeId`, and the response reports a null assignee id. -/
theorem claim_C6_witness :
    (∀ v, ExtCall.linear usersQuery v ∉
      (bitrix_linear envW (mkAttachPayload [])).2)
    ∧ (∀ v, ExtCall.linear mutationCreate v ∈
        (bitrix_linear envW (mkAttachPayload [])).2 →
        ∃ title desc,
          v = Json.obj [("input", Json.obj [("title", title),
            ("description", desc),
            ("teamId", jsonOfOpt envW.linearTeamId)])] ∧
          lookupKey [("title", title), ("description", desc),
            ("teamId", jsonOfOpt envW.linearTeamId)] "assigneeId" = none)
    ∧ (∀ resp, (bitrix_linear envW (mkAttachPayload [])).1 =
        Except.ok resp →
        resp.dictGet "assigneeId" = Except.ok Json.null) :=
  claim_C6_no_assignee envW (mkAttachPayload [])
    [("TITLE", Json.str "T"), ("ATTACHMENT_URLS", Json.arr [])] rfl rfl

/-! ## Claim C3 — the end-to-end scenario response -/

/-- **C3 counterexample**: at the scenario input, with the lookup resolving
`a@b.com` to `U1` and the tracker creating issue `I1`/`ENG-42`, the success
response consists of *six* fields — the five the claim lists plus
`attachment_urls_received` — so it does not equal exactly the claimed
five-field body. -/
theorem claim_C3_counterexample :
    (bitrix_linear envW payloadC3).1 =
      Except.ok (Json.obj [("ok", Json.bool true), ("issue", issueW),
        ("assigneeEmail", Json.str "a@b.com"), ("assigneeId", Json.str "U1"),
        ("attachment_urls_received", Json.arr [Json.str "http://x/file.pdf"]),
        ("attachments", Json.arr
          [Json.str "https://pub-x.r2.dev/attachments/file.pdf"])])
    ∧ Json.obj [("ok", Json.bool true), ("issue", issueW),
        ("assigneeEmail", Json.str "a@b.com"), ("assigneeId", Json.str "U1"),
        ("attachment_urls_received", Json.arr [Json.str "http://x/file.pdf"]),
        ("attachments", Json.arr
          [Json.str "https://pub-x.r2.dev/attachments/file.pdf"])] ≠
      Json.obj [("ok", Json.bool true), ("issue", issueW),
        ("assigneeEmail", Json.str "a@b.com"), ("assigneeId", Json.str "U1"),
        ("attachments", Json.arr
          [Json.str "https://pub-x.r2.dev/attachments/file.pdf"])] := by
  refine ⟨rfl, ?_⟩
  intro h
  have := Json.obj.inj h
  simp at this

/-- **C3 (amended)**: at the scenario input, the webhook's success response is
a body whose fields `ok`, `issue`, `assigneeEmail`, `assigneeId` and
`attachments` carry exactly the claimed values — `{ok: true, issue: {id: I1,
identifier: ENG-42, title: "Fix pump", url: ...}, assigneeEmail: "a@b.com",
assigneeId: "U1", attachments: ["<publicBase>/attachments/file.pdf"]}` — plus
one additional field `attachment_urls_received` carrying the received URL
list. -/
theorem claim_C3_amended :
    (bitrix_linear envW payloadC3).1 =
      Except.ok (Json.obj [("ok", Json.bool true),
        ("issue", Json.obj [("id", Json.str "I1"),
          ("identifier", Json.str "ENG-42"), ("title", Json.str "Fix pump"),
          ("url", Json.str "https://linear.app/i/ENG-42")]),
        ("assigneeEmail", Json.str "a@b.com"), ("assigneeId", Json.str "U1"),
        ("attachment_urls_received", Json.arr [Json.str "http://x/file.pdf"]),
        ("attachments", Json.arr
          [Json.str "https://pub-x.r2.dev/attachments/file.pdf"])]) := rfl
